import Mathlib

/-!
# Verification of the delivery backend's scan engine and notification fanout

This file is a shallow embedding, in Lean, of the core scan/lifecycle/notification
logic of the delivery backend (`app/api/v1/endpoints.py`, `app/notifications.py`,
`app/models.py`).  Database rows become lists of structures, the SQLAlchemy
session becomes explicit state passing, endpoints raising `HTTPException`
become functions into `Except`.  UUIDs are modelled as `Nat` identifiers and
dates as `Nat` day indices; neither is ever computed with, only compared.
All counts are `Int`, as the API performs no positivity validation on the
`count` fields of its request schemas.
-/

namespace DeliveryBackend

/-- Roles of `app.models.UserRole`. -/
inductive UserRole
  | supervisor
  | manager
  | driver
deriving DecidableEq, Repr

/-- Scan stages of `app.models.ScanStage`. -/
inductive ScanStage
  | source_pick
  | dest_arrival
  | dest_receive
deriving DecidableEq, Repr

/-- Delivery lifecycle statuses of `app.models.DeliveryStatus`. -/
inductive DeliveryStatus
  | created
  | partial_pick
  | picked
  | in_transit
  | arrived
  | partial_receive
  | received
  | redirected
deriving DecidableEq, Repr

/-- A row of the `warehouses` table (`app.models.Warehouse`); only the fields
the embedded operations read. -/
structure Warehouse where
  id : Nat
  is_main : Bool
deriving DecidableEq, Repr

/-- The authenticated user as returned by `get_current_user`
(`app.models.User`). -/
structure User where
  id : Nat
  role : UserRole
  warehouse_id : Option Nat
deriving DecidableEq, Repr

/-- A row of the `deliveries` table (`app.models.Delivery`). -/
structure Delivery where
  id : Nat
  delivery_number : String
  source_id : Nat
  destination_id : Nat
  expected_packages : Int
  status : DeliveryStatus
deriving DecidableEq, Repr

/-- A row of the `scan_counters` table (`app.models.ScanCounter`),
keyed by (delivery, stage). -/
structure ScanCounter where
  delivery_id : Nat
  stage : ScanStage
  total : Int
deriving DecidableEq, Repr

/-- A row of the `scan_events` table (`app.models.ScanEvent`); server
timestamps are not modelled. -/
structure ScanEvent where
  delivery_id : Nat
  stage : ScanStage
  scanned_by : Nat
  warehouse_id : Option Nat
  count : Int
  client_device_id : Option String
deriving DecidableEq, Repr

/-- A row of the `audit_log` table (`app.models.AuditLog`).  The JSON
`details` payload of scan-type entries is modelled by its two fields. -/
structure AuditLog where
  actor_id : Nat
  event_type : String
  delivery_id : Nat
  detail_stage : Option ScanStage
  detail_count : Option Int
deriving DecidableEq, Repr

/-- A row of the `driver_routes` table (`app.models.DriverRoute`). -/
structure DriverRoute where
  driver_id : Nat
  route_date : Nat
  warehouse_id : Nat
deriving DecidableEq, Repr

/-- The durable state touched by the embedded endpoints: one list per table. -/
structure Store where
  deliveries : List Delivery
  counters : List ScanCounter
  events : List ScanEvent
  audit : List AuditLog
  routes : List DriverRoute
  warehouses : List Warehouse
deriving DecidableEq, Repr

/-- Errors raised by the embedded endpoints (`HTTPException` status codes:
404, 403, 400 for the stage-precondition failures). -/
inductive ApiError
  | notFound
  | forbidden
  | preconditionFailed
deriving DecidableEq, Repr

/-- Body of `POST /deliveries/scan` (`app.api.v1.schemas.ScanRequest`). -/
structure ScanRequest where
  delivery_number : String
  count : Int
  stage : ScanStage
deriving DecidableEq, Repr

/-- Body of `POST /deliveries/manual_scan` (`ManualScanRequest` in
`endpoints.py`). -/
structure ManualScanRequest where
  delivery_number : String
  stage : ScanStage
  count : Int
  warehouse_id : Option Nat
deriving DecidableEq, Repr

/-- Successful response of `scan_delivery`: the post-commit delivery status,
the per-stage counter map for the delivery, and its expected count. -/
structure ScanResponse where
  delivery_status : DeliveryStatus
  counters : List (ScanStage × Int)
  expected_packages : Int
deriving DecidableEq, Repr

instance {ε α : Type} [DecidableEq ε] [DecidableEq α] : DecidableEq (Except ε α) :=
  fun x y =>
    match x, y with
    | .error a, .error b =>
      if h : a = b then .isTrue (by rw [h]) else .isFalse (fun hx => h (Except.error.inj hx))
    | .ok a, .ok b =>
      if h : a = b then .isTrue (by rw [h]) else .isFalse (fun hx => h (Except.ok.inj hx))
    | .error _, .ok _ => .isFalse (fun hx => Except.noConfusion hx)
    | .ok _, .error _ => .isFalse (fun hx => Except.noConfusion hx)

/-- `db.query(Delivery).filter(Delivery.delivery_number == n).first()`. -/
def findDelivery (s : Store) (n : String) : Option Delivery :=
  s.deliveries.find? (fun d => d.delivery_number == n)

/-- `db.query(DriverRoute.warehouse_id).filter(driver_id == uid, route_date == today)`,
as the list of warehouse ids. -/
def routeWarehouses (routes : List DriverRoute) (uid today : Nat) : List Nat :=
  (routes.filter (fun r => r.driver_id == uid && r.route_date == today)).map
    (fun r => r.warehouse_id)

/-- The row filter `ScanCounter.delivery_id == did, ScanCounter.stage == st`. -/
def counterKey (did : Nat) (st : ScanStage) (c : ScanCounter) : Bool :=
  c.delivery_id == did && c.stage == st

/-- `db.query(ScanCounter).filter(delivery_id == did, stage == st).first()`. -/
def findCounter (cs : List ScanCounter) (did : Nat) (st : ScanStage) : Option ScanCounter :=
  cs.find? (counterKey did st)

/-- The counter total read by the endpoints: the stored row's total, or `0`
for the lazily created row (`ScanCounter(..., total=0)`). -/
def counterTotal (cs : List ScanCounter) (did : Nat) (st : ScanStage) : Int :=
  match findCounter cs did st with
  | some c => c.total
  | none => 0

/-- Net effect on the `scan_counters` table of `counter.total = new_total`
after the lazy `db.add(ScanCounter(..., total=0)); db.flush()`: the
(delivery, stage) row ends at total `t`, appended at the end when it did not
exist. -/
def setCounterTotal (cs : List ScanCounter) (did : Nat) (st : ScanStage) (t : Int) :
    List ScanCounter :=
  if cs.any (counterKey did st) then
    cs.map (fun c => if counterKey did st c then { c with total := t } else c)
  else
    cs ++ [{ delivery_id := did, stage := st, total := t }]

/-- `delivery.status = st; db.add(delivery)`: rows of the delivery's id get
the new status. -/
def setDeliveryStatus (ds : List Delivery) (did : Nat) (st : DeliveryStatus) :
    List Delivery :=
  ds.map (fun d => if d.id == did then { d with status := st } else d)

/-- The status written by the shared status-update blocks of `scan_delivery`
and `supervisor_manual_scan`, given the stage, the counter total after the
write and the delivery's expected count. -/
def lifecycleStatus (st : ScanStage) (new_total expected : Int) : DeliveryStatus :=
  match st with
  | .source_pick => if new_total < expected then .partial_pick else .picked
  | .dest_arrival => .arrived
  | .dest_receive => if new_total ≥ expected then .received else .partial_receive

/-- The post-commit per-stage counter map returned to the client. -/
def countersOf (s : Store) (did : Nat) : List (ScanStage × Int) :=
  (s.counters.filter (fun c => c.delivery_id == did)).map (fun c => (c.stage, c.total))

/-- The success path of `scan_delivery` (`endpoints.py` lines 304–378): the
counter/event/status/audit writes applied after all checks passed, for the
resolved `delivery`. -/
def scanApply (s : Store) (user : User) (scan : ScanRequest)
    (client_device_id : Option String) (delivery : Delivery) : Store × ScanResponse :=
  let total0 := counterTotal s.counters delivery.id scan.stage
  let new_total := min (total0 + scan.count) delivery.expected_packages
  let increment := max 0 (new_total - total0)
  let warehouse_id : Option Nat :=
    if user.role = .manager then user.warehouse_id
    else if scan.stage = .source_pick then some delivery.source_id
    else some delivery.destination_id
  let ev : ScanEvent :=
    { delivery_id := delivery.id, stage := scan.stage,
      scanned_by := user.id, warehouse_id := warehouse_id,
      count := increment, client_device_id := client_device_id }
  let events' := if 0 < increment then s.events ++ [ev] else s.events
  let deliveries' :=
    if 0 < increment then
      setDeliveryStatus s.deliveries delivery.id
        (lifecycleStatus scan.stage new_total delivery.expected_packages)
    else s.deliveries
  let logEntry : AuditLog :=
    { actor_id := user.id, event_type := "scan",
      delivery_id := delivery.id, detail_stage := some scan.stage,
      detail_count := some increment }
  let s' : Store :=
    { s with
      deliveries := deliveries',
      counters := setCounterTotal s.counters delivery.id scan.stage new_total,
      events := events',
      audit := s.audit ++ [logEntry] }
  let resp : ScanResponse :=
    { delivery_status :=
        if 0 < increment then
          lifecycleStatus scan.stage new_total delivery.expected_packages
        else delivery.status,
      counters := countersOf s' delivery.id,
      expected_packages := delivery.expected_packages }
  (s', resp)

/-- Shallow embedding of `scan_delivery` (`POST /deliveries/scan`,
`endpoints.py` lines 267–378).  `today` is `datetime.utcnow().date()`.
Role comparisons in the source (`current_user.role == "driver"` etc.)
are read as comparisons of the user's role. -/
def scan_delivery (s : Store) (user : User) (scan : ScanRequest)
    (client_device_id : Option String) (today : Nat) :
    Except ApiError (Store × ScanResponse) :=
  match findDelivery s scan.delivery_number with
  | none => .error .notFound
  | some delivery =>
    if user.role = .driver ∧
        delivery.source_id ∉ routeWarehouses s.routes user.id today ∧
        delivery.destination_id ∉ routeWarehouses s.routes user.id today then
      .error .forbidden
    else if scan.stage = .dest_arrival ∧ delivery.status ≠ .picked then
      .error .preconditionFailed
    else if scan.stage = .dest_receive ∧
        delivery.status ∉ [DeliveryStatus.picked, .arrived, .partial_receive] then
      .error .preconditionFailed
    else
      .ok (scanApply s user scan client_device_id delivery)

/-- The body of `supervisor_manual_scan` after the role check and delivery
lookup (`endpoints.py` lines 592–654): counter write, optional event, the
unconditional status recomputation, and the audit entry. -/
def manualApply (s : Store) (user : User) (payload : ManualScanRequest)
    (delivery : Delivery) : Store × DeliveryStatus × List (ScanStage × Int) :=
  let total0 := counterTotal s.counters delivery.id payload.stage
  let new_total := min (total0 + payload.count) delivery.expected_packages
  let increment := max 0 (new_total - total0)
  let warehouse_id : Option Nat :=
    match payload.warehouse_id with
    | some w => some w
    | none => some (if payload.stage = .source_pick then delivery.source_id
        else delivery.destination_id)
  let ev : ScanEvent :=
    { delivery_id := delivery.id, stage := payload.stage,
      scanned_by := user.id, warehouse_id := warehouse_id,
      count := increment, client_device_id := some "supervisor_manual" }
  let events' := if 0 < increment then s.events ++ [ev] else s.events
  let status' := lifecycleStatus payload.stage new_total delivery.expected_packages
  let logEntry : AuditLog :=
    { actor_id := user.id, event_type := "manual_scan",
      delivery_id := delivery.id, detail_stage := some payload.stage,
      detail_count := some increment }
  let s' : Store :=
    { s with
      deliveries := setDeliveryStatus s.deliveries delivery.id status',
      counters := setCounterTotal s.counters delivery.id payload.stage new_total,
      events := events',
      audit := s.audit ++ [logEntry] }
  (s', status', countersOf s' delivery.id)

/-- Shallow embedding of `supervisor_manual_scan`
(`POST /deliveries/manual_scan`, `endpoints.py` lines 579–654).  The result
carries the new store, the post-commit delivery status and the counter map. -/
def supervisor_manual_scan (s : Store) (user : User) (payload : ManualScanRequest) :
    Except ApiError (Store × DeliveryStatus × List (ScanStage × Int)) :=
  if user.role ≠ .supervisor then .error .forbidden
  else
    match findDelivery s payload.delivery_number with
    | none => .error .notFound
    | some delivery => .ok (manualApply s user payload delivery)

/-- Shallow embedding of `select_route` (`POST /deliveries/select_route`):
delete today's rows for the driver, re-add the main warehouse when one
exists, then add each selected warehouse. -/
def select_route (s : Store) (user : User) (warehouse_ids : List Nat) (today : Nat) :
    Store :=
  let routes1 := s.routes.filter
    (fun r => !(r.driver_id == user.id && r.route_date == today))
  let routes2 :=
    match s.warehouses.find? (fun w => w.is_main) with
    | some m => routes1 ++ [{ driver_id := user.id, warehouse_id := m.id, route_date := today }]
    | none => routes1
  let routes3 := routes2 ++ warehouse_ids.map
    (fun w => { driver_id := user.id, warehouse_id := w, route_date := today })
  { s with routes := routes3 }

/-- An entry of the in-memory `connections` registry of `app/notifications.py`:
role and warehouse affinity come from the JWT (strings), `ws` identifies the
transport handle. -/
structure ConnEntry where
  role : String
  warehouse_id : Option Nat
  ws : Nat
deriving DecidableEq, Repr

/-- The registry flattened to (user_id, entry) pairs, exactly the snapshot
`notify_new_delivery` gathers before iterating. -/
abbrev Registry := List (Nat × ConnEntry)

/-- The per-connection filter of `notify_new_delivery`: should this (uid,
entry) pair receive the `delivery_created` event for `d`? -/
def notifyTarget (routes : List DriverRoute) (today : Nat) (d : Delivery)
    (uc : Nat × ConnEntry) : Bool :=
  if uc.2.role == "supervisor" then true
  else if uc.2.role == "manager" then
    match uc.2.warehouse_id with
    | some w => w == d.destination_id
    | none => false
  else if uc.2.role == "driver" then
    let rw := routeWarehouses routes uc.1 today
    rw.contains d.destination_id || rw.contains d.source_id
  else false

/-- Shallow embedding of `notify_new_delivery` (`notifications.py` lines
89–145).  `sendOk h` tells whether the transport send on handle `h` succeeds.
`send_json_safe` wraps the send in `try/except: pass`, so a failed send never
raises into the caller; the caller's `except`/`unregister_connection` branch
is therefore not reached by send failures and the registry comes back
unchanged.  The result is (registry after the fanout, connections to which a
send was attempted, connections whose transport send succeeded). -/
def notify_new_delivery (reg : Registry) (d : Delivery) (routes : List DriverRoute)
    (today : Nat) (sendOk : Nat → Bool) :
    Registry × List (Nat × ConnEntry) × List (Nat × ConnEntry) :=
  let snapshot := reg
  let attempted := snapshot.filter (notifyTarget routes today d)
  (reg, attempted, attempted.filter (fun uc => sendOk uc.2.ws))

/-- One invocation against the store: a `scan_delivery` call or a
`supervisor_manual_scan` call, with everything the endpoint reads. -/
inductive Op
  | scan (user : User) (req : ScanRequest) (cdi : Option String) (today : Nat)
  | manual (user : User) (req : ManualScanRequest)
deriving Repr

/-- The requested count of an operation. -/
def Op.count : Op → Int
  | .scan _ r _ _ => r.count
  | .manual _ r => r.count

/-- Run one operation: an endpoint that raises commits nothing, so the store
is unchanged on error. -/
def applyOp (s : Store) : Op → Store
  | .scan u r c t =>
    match scan_delivery s u r c t with
    | .ok out => out.1
    | .error _ => s
  | .manual u r =>
    match supervisor_manual_scan s u r with
    | .ok out => out.1
    | .error _ => s

/-- Run a sequence of operations left to right. -/
def applyOps (s : Store) (ops : List Op) : Store :=
  ops.foldl applyOp s

/-- The scan-counter bound of the spec: every counter row lies between 0 and
the expected count of its delivery. -/
def CounterInv (s : Store) : Prop :=
  ∀ c ∈ s.counters, ∀ d ∈ s.deliveries, c.delivery_id = d.id →
    0 ≤ c.total ∧ c.total ≤ d.expected_packages

instance (s : Store) : Decidable (CounterInv s) := by
  unfold CounterInv; infer_instance

/-- Database well-formedness used by the invariant proofs: delivery ids are
unique (primary key) and expected counts are nonnegative. -/
def WFStore (s : Store) : Prop :=
  (s.deliveries.map (fun d => d.id)).Nodup ∧
    ∀ d ∈ s.deliveries, 0 ≤ d.expected_packages

instance (s : Store) : Decidable (WFStore s) := by
  unfold WFStore; infer_instance

/-- The upper half of the counter bound on its own: no counter row exceeds
its delivery's expected count.  (This half holds for arbitrary, also
negative, requested counts.) -/
def CounterUB (s : Store) : Prop :=
  ∀ c ∈ s.counters, ∀ d ∈ s.deliveries, c.delivery_id = d.id →
    c.total ≤ d.expected_packages

instance (s : Store) : Decidable (CounterUB s) := by
  unfold CounterUB; infer_instance

/-- Run a sequence of `scan_delivery` calls by one user against the store. -/
def applyScans (s : Store) (user : User) (reqs : List ScanRequest)
    (cdi : Option String) (today : Nat) : Store :=
  reqs.foldl (fun acc r => applyOp acc (Op.scan user r cdi today)) s

/-- Total requested quantity of the `source_pick` requests of a sequence. -/
def pickSum (reqs : List ScanRequest) : Int :=
  ((reqs.filter (fun r => r.stage == ScanStage.source_pick)).map (fun r => r.count)).sum

/-- Route Gate as the spec words it (§4.3): `IsAuthorized(driver_id,
warehouse_id, date)` is true when the warehouse appears in the driver's route
rows for the date, OR the warehouse is the designated main warehouse
(implicitly authorized every day).  Stated from the spec's words, to compare
with the authorization check `scan_delivery` actually performs. -/
def specIsAuthorized (s : Store) (driver_id warehouse_id date : Nat) : Bool :=
  (routeWarehouses s.routes driver_id date).contains warehouse_id ||
    s.warehouses.any (fun w => w.is_main && w.id == warehouse_id)

/-! ## Concrete fixtures used by counterexamples and witnesses -/

/-- A one-delivery fixture: delivery `D1` travels from warehouse 1 (the main
warehouse) to warehouse 2. -/
def mkDelivery (st : DeliveryStatus) (exp : Int) : Delivery :=
  { id := 1, delivery_number := "D1", source_id := 1, destination_id := 2,
    expected_packages := exp, status := st }

/-- A store holding just the fixture delivery and the two warehouses;
`routes` is empty (no driver selected a route today). -/
def mkStore (d : Delivery) (cs : List ScanCounter) : Store :=
  { deliveries := [d], counters := cs, events := [], audit := [], routes := [],
    warehouses := [{ id := 1, is_main := true }, { id := 2, is_main := false }] }

/-- A supervisor actor. -/
def supUser : User := { id := 9, role := .supervisor, warehouse_id := none }

/-- A driver actor with no route selected today. -/
def drvUser : User := { id := 5, role := .driver, warehouse_id := none }

/-- A manager actor affiliated to warehouse 3. -/
def mgrUser : User := { id := 7, role := .manager, warehouse_id := some 3 }

/-! ## Helper lemmas about the store primitives -/

lemma find?_map_comm {α : Type} (f : α → α) (p : α → Bool)
    (hf : ∀ a, p (f a) = p a) (l : List α) :
    (l.map f).find? p = (l.find? p).map f := by
  induction l with
  | nil => rfl
  | cons a l ih =>
    by_cases h : p a = true
    · rw [List.map_cons, List.find?_cons_of_pos _ ((hf a).trans h),
        List.find?_cons_of_pos _ h, Option.map_some']
    · rw [List.map_cons, List.find?_cons_of_neg _ (by rw [hf a]; exact h),
        List.find?_cons_of_neg _ h, ih]

lemma findDelivery_mem {s : Store} {n : String} {d : Delivery}
    (h : findDelivery s n = some d) : d ∈ s.deliveries ∧ d.delivery_number = n := by
  refine ⟨List.mem_of_find?_eq_some h, ?_⟩
  have := List.find?_some h
  simpa using this

lemma counterKey_eq_true {did : Nat} {st : ScanStage} {c : ScanCounter} :
    counterKey did st c = true ↔ c.delivery_id = did ∧ c.stage = st := by
  unfold counterKey
  simp [Bool.and_eq_true]

lemma findCounter_mem {cs : List ScanCounter} {did : Nat} {st : ScanStage}
    {c : ScanCounter} (h : findCounter cs did st = some c) :
    c ∈ cs ∧ c.delivery_id = did ∧ c.stage = st :=
  ⟨List.mem_of_find?_eq_some h, counterKey_eq_true.1 (List.find?_some h)⟩

lemma mem_setCounterTotal {cs : List ScanCounter} {did : Nat} {st : ScanStage}
    {t : Int} {c' : ScanCounter} (h : c' ∈ setCounterTotal cs did st t) :
    c' ∈ cs ∨ (c'.delivery_id = did ∧ c'.stage = st ∧ c'.total = t) := by
  unfold setCounterTotal at h
  split at h
  · rcases List.mem_map.1 h with ⟨c, hc, rfl⟩
    by_cases hp : counterKey did st c = true
    · right
      rw [if_pos hp]
      rcases counterKey_eq_true.1 hp with ⟨h1, h2⟩
      exact ⟨h1, h2, rfl⟩
    · left
      rwa [if_neg hp]
  · rcases List.mem_append.1 h with h | h
    · exact Or.inl h
    · right
      simp only [List.mem_singleton] at h
      subst h
      exact ⟨rfl, rfl, rfl⟩

lemma findCounter_mapUpdate (cs : List ScanCounter) (did : Nat) (st : ScanStage)
    (t : Int) (hany : cs.any (counterKey did st) = true) :
    findCounter (cs.map (fun c => if counterKey did st c then { c with total := t } else c))
      did st = some { delivery_id := did, stage := st, total := t } := by
  induction cs with
  | nil => simp at hany
  | cons c cs ih =>
    by_cases hp : counterKey did st c = true
    · unfold findCounter
      rw [List.map_cons, if_pos hp]
      have hph : counterKey did st
          ({ delivery_id := c.delivery_id, stage := c.stage, total := t } : ScanCounter)
            = true := hp
      rw [List.find?_cons_of_pos _ hph]
      rcases counterKey_eq_true.1 hp with ⟨h1, h2⟩
      simp [h1, h2]
    · have hany' : cs.any (counterKey did st) = true := by
        rcases List.any_eq_true.1 hany with ⟨x, hx, hxp⟩
        rcases List.mem_cons.1 hx with rfl | hx
        · exact absurd hxp hp
        · exact List.any_eq_true.2 ⟨x, hx, hxp⟩
      unfold findCounter at ih ⊢
      rw [List.map_cons, if_neg hp, List.find?_cons_of_neg _ hp]
      exact ih hany'

lemma findCounter_setCounterTotal_self (cs : List ScanCounter) (did : Nat)
    (st : ScanStage) (t : Int) :
    findCounter (setCounterTotal cs did st t) did st =
      some { delivery_id := did, stage := st, total := t } := by
  unfold setCounterTotal
  split
  case isTrue hany => exact findCounter_mapUpdate cs did st t hany
  case isFalse hany =>
    unfold findCounter
    rw [List.find?_append]
    have h1 : cs.find? (counterKey did st) = none := by
      rw [List.find?_eq_none]
      intro x hx hxp
      exact hany (List.any_eq_true.2 ⟨x, hx, hxp⟩)
    rw [h1]
    have h2 : counterKey did st
        ({ delivery_id := did, stage := st, total := t } : ScanCounter) = true :=
      counterKey_eq_true.2 ⟨rfl, rfl⟩
    rw [List.find?_cons_of_pos _ h2]
    rfl

lemma counterTotal_setCounterTotal_self (cs : List ScanCounter) (did : Nat)
    (st : ScanStage) (t : Int) :
    counterTotal (setCounterTotal cs did st t) did st = t := by
  unfold counterTotal
  rw [findCounter_setCounterTotal_self]

lemma findCounter_setCounterTotal_other (cs : List ScanCounter) (did : Nat)
    (st : ScanStage) (t : Int) (did' : Nat) (st' : ScanStage)
    (h : ¬(did' = did ∧ st' = st)) :
    findCounter (setCounterTotal cs did st t) did' st' = findCounter cs did' st' := by
  have hpred : ∀ c : ScanCounter,
      counterKey did' st' (if counterKey did st c then { c with total := t } else c) =
        counterKey did' st' c := by
    intro c
    by_cases hp : counterKey did st c = true
    · rw [if_pos hp]
      rfl
    · rw [if_neg hp]
  unfold setCounterTotal
  split
  · unfold findCounter
    rw [find?_map_comm _ _ hpred cs]
    cases hf : cs.find? (counterKey did' st') with
    | none => rfl
    | some c0 =>
      have hc0 := counterKey_eq_true.1 (List.find?_some hf)
      have hcond : ¬(counterKey did st c0 = true) := by
        intro hcontra
        rcases counterKey_eq_true.1 hcontra with ⟨h1, h2⟩
        exact h ⟨by rw [← hc0.1, h1], by rw [← hc0.2, h2]⟩
      rw [Option.map_some', if_neg hcond]
  · unfold findCounter
    rw [List.find?_append]
    have hsingle : List.find? (counterKey did' st')
        [({ delivery_id := did, stage := st, total := t } : ScanCounter)] = none := by
      rw [List.find?_eq_none]
      intro x hx
      simp only [List.mem_singleton] at hx
      subst hx
      intro hcontra
      rcases counterKey_eq_true.1 hcontra with ⟨h1, h2⟩
      exact h ⟨h1.symm, h2.symm⟩
    rw [hsingle]
    cases cs.find? (counterKey did' st') <;> rfl

lemma counterTotal_setCounterTotal_other (cs : List ScanCounter) (did : Nat)
    (st : ScanStage) (t : Int) (did' : Nat) (st' : ScanStage)
    (h : ¬(did' = did ∧ st' = st)) :
    counterTotal (setCounterTotal cs did st t) did' st' = counterTotal cs did' st' := by
  unfold counterTotal
  rw [findCounter_setCounterTotal_other cs did st t did' st' h]

lemma find?_number_setDeliveryStatus (ds : List Delivery) (i : Nat)
    (st : DeliveryStatus) (n : String) :
    (setDeliveryStatus ds i st).find? (fun d => d.delivery_number == n) =
      (ds.find? (fun d => d.delivery_number == n)).map
        (fun d => if d.id == i then { d with status := st } else d) := by
  unfold setDeliveryStatus
  apply find?_map_comm
  intro d
  by_cases hi : (d.id == i) = true <;> simp [hi]

lemma mem_setDeliveryStatus {ds : List Delivery} {i : Nat} {st : DeliveryStatus}
    {d' : Delivery} (h : d' ∈ setDeliveryStatus ds i st) :
    ∃ d ∈ ds, d'.id = d.id ∧ d'.expected_packages = d.expected_packages ∧
      d'.delivery_number = d.delivery_number := by
  unfold setDeliveryStatus at h
  rcases List.mem_map.1 h with ⟨d, hd, rfl⟩
  refine ⟨d, hd, ?_⟩
  by_cases hi : (d.id == i) = true
  · rw [if_pos hi]
    exact ⟨rfl, rfl, rfl⟩
  · rw [if_neg hi]
    exact ⟨rfl, rfl, rfl⟩

lemma findDelivery_after_status {ds : List Delivery} {i : Nat} {st : DeliveryStatus}
    {n : String} {d0 : Delivery}
    (h : ds.find? (fun d => d.delivery_number == n) = some d0) :
    ∃ d1, (setDeliveryStatus ds i st).find? (fun d => d.delivery_number == n) = some d1 ∧
      d1.id = d0.id ∧ d1.expected_packages = d0.expected_packages ∧
      d1.delivery_number = d0.delivery_number := by
  rw [find?_number_setDeliveryStatus, h, Option.map_some']
  refine ⟨_, rfl, ?_⟩
  by_cases hi : (d0.id == i) = true
  · rw [if_pos hi]
    exact ⟨rfl, rfl, rfl⟩
  · rw [if_neg hi]
    exact ⟨rfl, rfl, rfl⟩

lemma findDelivery_after_status_self {ds : List Delivery} {st : DeliveryStatus}
    {n : String} {d0 : Delivery}
    (h : ds.find? (fun d => d.delivery_number == n) = some d0) :
    (setDeliveryStatus ds d0.id st).find? (fun d => d.delivery_number == n) =
      some { d0 with status := st } := by
  rw [find?_number_setDeliveryStatus, h, Option.map_some', if_pos]
  exact beq_self_eq_true d0.id

lemma map_id_setDeliveryStatus (ds : List Delivery) (i : Nat) (st : DeliveryStatus) :
    (setDeliveryStatus ds i st).map (fun d => d.id) = ds.map (fun d => d.id) := by
  unfold setDeliveryStatus
  rw [List.map_map]
  apply List.map_congr_left
  intro d _
  by_cases hi : (d.id == i) = true
  · show (if (d.id == i) = true then { d with status := st } else d).id = d.id
    rw [if_pos hi]
  · show (if (d.id == i) = true then { d with status := st } else d).id = d.id
    rw [if_neg hi]

/-! ## Effect lemmas for the two scan endpoints -/

lemma scan_delivery_some (s : Store) (user : User) (scan : ScanRequest)
    (cdi : Option String) (today : Nat) (delivery : Delivery)
    (hd : findDelivery s scan.delivery_number = some delivery) :
    scan_delivery s user scan cdi today =
      if user.role = .driver ∧
          delivery.source_id ∉ routeWarehouses s.routes user.id today ∧
          delivery.destination_id ∉ routeWarehouses s.routes user.id today then
        .error .forbidden
      else if scan.stage = .dest_arrival ∧ delivery.status ≠ .picked then
        .error .preconditionFailed
      else if scan.stage = .dest_receive ∧
          delivery.status ∉ [DeliveryStatus.picked, .arrived, .partial_receive] then
        .error .preconditionFailed
      else .ok (scanApply s user scan cdi delivery) := by
  unfold scan_delivery
  rw [hd]

lemma scan_delivery_ok_store {s : Store} {user : User} {scan : ScanRequest}
    {cdi : Option String} {today : Nat} {out : Store × ScanResponse}
    (h : scan_delivery s user scan cdi today = .ok out) :
    ∃ delivery, findDelivery s scan.delivery_number = some delivery ∧
      out = scanApply s user scan cdi delivery := by
  cases hfd : findDelivery s scan.delivery_number with
  | none =>
    unfold scan_delivery at h
    rw [hfd] at h
    exact Except.noConfusion h
  | some delivery =>
    rw [scan_delivery_some s user scan cdi today delivery hfd] at h
    refine ⟨delivery, rfl, ?_⟩
    split_ifs at h
    exact (Except.ok.inj h).symm

lemma supervisor_manual_scan_ok {s : Store} {user : User} {payload : ManualScanRequest}
    {out : Store × DeliveryStatus × List (ScanStage × Int)}
    (h : supervisor_manual_scan s user payload = .ok out) :
    user.role = .supervisor ∧
      ∃ delivery, findDelivery s payload.delivery_number = some delivery ∧
        out = manualApply s user payload delivery := by
  unfold supervisor_manual_scan at h
  by_cases hrole : user.role ≠ UserRole.supervisor
  · rw [if_pos hrole] at h
    exact Except.noConfusion h
  · rw [if_neg hrole] at h
    refine ⟨not_ne_iff.1 hrole, ?_⟩
    cases hfd : findDelivery s payload.delivery_number with
    | none =>
      rw [hfd] at h
      exact Except.noConfusion h
    | some delivery =>
      rw [hfd] at h
      exact ⟨delivery, rfl, (Except.ok.inj h).symm⟩

lemma supervisor_manual_scan_sup (s : Store) (user : User) (payload : ManualScanRequest)
    (delivery : Delivery) (hrole : user.role = .supervisor)
    (hd : findDelivery s payload.delivery_number = some delivery) :
    supervisor_manual_scan s user payload = .ok (manualApply s user payload delivery) := by
  unfold supervisor_manual_scan
  rw [if_neg (show ¬(user.role ≠ UserRole.supervisor) from fun hx => hx hrole), hd]

lemma scanApply_counters (s : Store) (user : User) (scan : ScanRequest)
    (cdi : Option String) (delivery : Delivery) :
    (scanApply s user scan cdi delivery).1.counters =
      setCounterTotal s.counters delivery.id scan.stage
        (min (counterTotal s.counters delivery.id scan.stage + scan.count)
          delivery.expected_packages) := rfl

lemma scanApply_deliveries (s : Store) (user : User) (scan : ScanRequest)
    (cdi : Option String) (delivery : Delivery) :
    (scanApply s user scan cdi delivery).1.deliveries =
      if 0 < max 0 (min (counterTotal s.counters delivery.id scan.stage + scan.count)
          delivery.expected_packages - counterTotal s.counters delivery.id scan.stage) then
        setDeliveryStatus s.deliveries delivery.id
          (lifecycleStatus scan.stage
            (min (counterTotal s.counters delivery.id scan.stage + scan.count)
              delivery.expected_packages) delivery.expected_packages)
      else s.deliveries := rfl

lemma scanApply_routes (s : Store) (user : User) (scan : ScanRequest)
    (cdi : Option String) (delivery : Delivery) :
    (scanApply s user scan cdi delivery).1.routes = s.routes := rfl

lemma scanApply_events (s : Store) (user : User) (scan : ScanRequest)
    (cdi : Option String) (delivery : Delivery) :
    (scanApply s user scan cdi delivery).1.events =
      if 0 < max 0 (min (counterTotal s.counters delivery.id scan.stage + scan.count)
          delivery.expected_packages - counterTotal s.counters delivery.id scan.stage) then
        s.events ++
          [{ delivery_id := delivery.id, stage := scan.stage, scanned_by := user.id,
             warehouse_id :=
               if user.role = .manager then user.warehouse_id
               else if scan.stage = .source_pick then some delivery.source_id
               else some delivery.destination_id,
             count := max 0 (min (counterTotal s.counters delivery.id scan.stage + scan.count)
               delivery.expected_packages - counterTotal s.counters delivery.id scan.stage),
             client_device_id := cdi }]
      else s.events := rfl

lemma scanApply_audit (s : Store) (user : User) (scan : ScanRequest)
    (cdi : Option String) (delivery : Delivery) :
    (scanApply s user scan cdi delivery).1.audit =
      s.audit ++
        [{ actor_id := user.id, event_type := "scan", delivery_id := delivery.id,
           detail_stage := some scan.stage,
           detail_count := some (max 0
             (min (counterTotal s.counters delivery.id scan.stage + scan.count)
               delivery.expected_packages -
               counterTotal s.counters delivery.id scan.stage)) }] := rfl

lemma scanApply_resp_status (s : Store) (user : User) (scan : ScanRequest)
    (cdi : Option String) (delivery : Delivery) :
    (scanApply s user scan cdi delivery).2.delivery_status =
      if 0 < max 0 (min (counterTotal s.counters delivery.id scan.stage + scan.count)
          delivery.expected_packages - counterTotal s.counters delivery.id scan.stage) then
        lifecycleStatus scan.stage
          (min (counterTotal s.counters delivery.id scan.stage + scan.count)
            delivery.expected_packages) delivery.expected_packages
      else delivery.status := rfl

lemma manualApply_status (s : Store) (user : User) (payload : ManualScanRequest)
    (delivery : Delivery) :
    (manualApply s user payload delivery).2.1 =
      lifecycleStatus payload.stage
        (min (counterTotal s.counters delivery.id payload.stage + payload.count)
          delivery.expected_packages) delivery.expected_packages := rfl

/-- A driver who passes the route authorization does not hit the Forbidden
branch of `scan_delivery`. -/
lemma auth_not_forbidden {s : Store} {user : User} {d : Delivery} {today : Nat}
    (hauth : user.role = .driver →
      d.source_id ∈ routeWarehouses s.routes user.id today ∨
      d.destination_id ∈ routeWarehouses s.routes user.id today) :
    ¬(user.role = .driver ∧
      d.source_id ∉ routeWarehouses s.routes user.id today ∧
      d.destination_id ∉ routeWarehouses s.routes user.id today) := by
  rintro ⟨h1, h2, h3⟩
  rcases hauth h1 with h | h
  · exact h2 h
  · exact h3 h

lemma manualApply_counters (s : Store) (user : User) (payload : ManualScanRequest)
    (delivery : Delivery) :
    (manualApply s user payload delivery).1.counters =
      setCounterTotal s.counters delivery.id payload.stage
        (min (counterTotal s.counters delivery.id payload.stage + payload.count)
          delivery.expected_packages) := rfl

lemma manualApply_deliveries (s : Store) (user : User) (payload : ManualScanRequest)
    (delivery : Delivery) :
    (manualApply s user payload delivery).1.deliveries =
      setDeliveryStatus s.deliveries delivery.id
        (lifecycleStatus payload.stage
          (min (counterTotal s.counters delivery.id payload.stage + payload.count)
            delivery.expected_packages) delivery.expected_packages) := rfl

/-! ## Preservation of the counter invariant -/

lemma setCounterTotal_inv (s : Store) (delivery : Delivery) (stage : ScanStage)
    (t : Int) (hmem : delivery ∈ s.deliveries)
    (hids : (s.deliveries.map (fun d => d.id)).Nodup)
    (hinv : CounterInv s) (h0 : 0 ≤ t) (hle : t ≤ delivery.expected_packages)
    (ds' : List Delivery)
    (hds' : ∀ d' ∈ ds', ∃ d ∈ s.deliveries,
      d'.id = d.id ∧ d'.expected_packages = d.expected_packages) :
    ∀ c ∈ setCounterTotal s.counters delivery.id stage t, ∀ d' ∈ ds',
      c.delivery_id = d'.id → 0 ≤ c.total ∧ c.total ≤ d'.expected_packages := by
  intro c hc d' hd' heq
  rcases hds' d' hd' with ⟨d, hdmem, hid, hexp⟩
  rcases mem_setCounterTotal hc with hold | ⟨hcid, _, hct⟩
  · rw [hexp]
    exact hinv c hold d hdmem (heq.trans hid)
  · have hdd : d.id = delivery.id := by rw [← hid, ← heq, hcid]
    have hddel : d = delivery := List.inj_on_of_nodup_map hids hdmem hmem hdd
    rw [hct, hexp, hddel]
    exact ⟨h0, hle⟩

lemma counterTotal_nonneg (s : Store) (delivery : Delivery) (stage : ScanStage)
    (hmem : delivery ∈ s.deliveries) (hinv : CounterInv s) :
    0 ≤ counterTotal s.counters delivery.id stage := by
  unfold counterTotal
  cases hfc : findCounter s.counters delivery.id stage with
  | none => exact le_refl 0
  | some c0 =>
    rcases findCounter_mem hfc with ⟨hc0mem, hc0id, _⟩
    exact (hinv c0 hc0mem delivery hmem hc0id).1

lemma scanApply_WF_inv (s : Store) (user : User) (scan : ScanRequest)
    (cdi : Option String) (delivery : Delivery) (hmem : delivery ∈ s.deliveries)
    (hwf : WFStore s) (hinv : CounterInv s) (hcount : 0 ≤ scan.count) :
    WFStore (scanApply s user scan cdi delivery).1 ∧
      CounterInv (scanApply s user scan cdi delivery).1 := by
  obtain ⟨hids, hexp⟩ := hwf
  have hE : 0 ≤ delivery.expected_packages := hexp delivery hmem
  have ht0 : 0 ≤ counterTotal s.counters delivery.id scan.stage :=
    counterTotal_nonneg s delivery scan.stage hmem hinv
  have h0t : 0 ≤ min (counterTotal s.counters delivery.id scan.stage + scan.count)
      delivery.expected_packages := le_min (by omega) hE
  have hlt : min (counterTotal s.counters delivery.id scan.stage + scan.count)
      delivery.expected_packages ≤ delivery.expected_packages := min_le_right _ _
  have hds' : ∀ d' ∈ (scanApply s user scan cdi delivery).1.deliveries,
      ∃ d ∈ s.deliveries, d'.id = d.id ∧ d'.expected_packages = d.expected_packages := by
    rw [scanApply_deliveries]
    split
    · intro d' hd'
      rcases mem_setDeliveryStatus hd' with ⟨d, hdm, h1, h2, _⟩
      exact ⟨d, hdm, h1, h2⟩
    · intro d' hd'
      exact ⟨d', hd', rfl, rfl⟩
  refine ⟨⟨?_, ?_⟩, ?_⟩
  · rw [scanApply_deliveries]
    split
    · rw [map_id_setDeliveryStatus]
      exact hids
    · exact hids
  · intro d' hd'
    rcases hds' d' hd' with ⟨d, hdm, _, h2⟩
    rw [h2]
    exact hexp d hdm
  · intro c hc d' hd' heq
    rw [scanApply_counters] at hc
    exact setCounterTotal_inv s delivery scan.stage _ hmem hids hinv h0t hlt _ hds'
      c hc d' hd' heq

lemma manualApply_WF_inv (s : Store) (user : User) (payload : ManualScanRequest)
    (delivery : Delivery) (hmem : delivery ∈ s.deliveries)
    (hwf : WFStore s) (hinv : CounterInv s) (hcount : 0 ≤ payload.count) :
    WFStore (manualApply s user payload delivery).1 ∧
      CounterInv (manualApply s user payload delivery).1 := by
  obtain ⟨hids, hexp⟩ := hwf
  have hE : 0 ≤ delivery.expected_packages := hexp delivery hmem
  have ht0 : 0 ≤ counterTotal s.counters delivery.id payload.stage :=
    counterTotal_nonneg s delivery payload.stage hmem hinv
  have h0t : 0 ≤ min (counterTotal s.counters delivery.id payload.stage + payload.count)
      delivery.expected_packages := le_min (by omega) hE
  have hlt : min (counterTotal s.counters delivery.id payload.stage + payload.count)
      delivery.expected_packages ≤ delivery.expected_packages := min_le_right _ _
  have hds' : ∀ d' ∈ (manualApply s user payload delivery).1.deliveries,
      ∃ d ∈ s.deliveries, d'.id = d.id ∧ d'.expected_packages = d.expected_packages := by
    rw [manualApply_deliveries]
    intro d' hd'
    rcases mem_setDeliveryStatus hd' with ⟨d, hdm, h1, h2, _⟩
    exact ⟨d, hdm, h1, h2⟩
  refine ⟨⟨?_, ?_⟩, ?_⟩
  · rw [manualApply_deliveries, map_id_setDeliveryStatus]
    exact hids
  · intro d' hd'
    rcases hds' d' hd' with ⟨d, hdm, _, h2⟩
    rw [h2]
    exact hexp d hdm
  · intro c hc d' hd' heq
    rw [manualApply_counters] at hc
    exact setCounterTotal_inv s delivery payload.stage _ hmem hids hinv h0t hlt _ hds'
      c hc d' hd' heq

lemma applyOp_WF_inv (s : Store) (op : Op) (hwf : WFStore s) (hinv : CounterInv s)
    (hcount : 0 ≤ op.count) : WFStore (applyOp s op) ∧ CounterInv (applyOp s op) := by
  cases op with
  | scan u r c t =>
    cases h : scan_delivery s u r c t with
    | error e =>
      simp only [applyOp, h]
      exact ⟨hwf, hinv⟩
    | ok out =>
      simp only [applyOp, h]
      rcases scan_delivery_ok_store h with ⟨delivery, hfd, rfl⟩
      exact scanApply_WF_inv s u r c delivery (findDelivery_mem hfd).1 hwf hinv hcount
  | manual u r =>
    cases h : supervisor_manual_scan s u r with
    | error e =>
      simp only [applyOp, h]
      exact ⟨hwf, hinv⟩
    | ok out =>
      simp only [applyOp, h]
      rcases supervisor_manual_scan_ok h with ⟨_, delivery, hfd, rfl⟩
      exact manualApply_WF_inv s u r delivery (findDelivery_mem hfd).1 hwf hinv hcount

lemma applyOps_WF_inv (ops : List Op) :
    ∀ s : Store, WFStore s → CounterInv s → (∀ op ∈ ops, 0 ≤ op.count) →
      WFStore (applyOps s ops) ∧ CounterInv (applyOps s ops) := by
  induction ops with
  | nil =>
    intro s hwf hinv _
    exact ⟨hwf, hinv⟩
  | cons op ops ih =>
    intro s hwf hinv hc
    have hstep := applyOp_WF_inv s op hwf hinv (hc op (List.mem_cons_self op ops))
    have := ih (applyOp s op) hstep.1 hstep.2
      (fun o ho => hc o (List.mem_cons_of_mem op ho))
    simpa [applyOps, List.foldl_cons] using this

lemma setCounterTotal_ub (s : Store) (delivery : Delivery) (stage : ScanStage)
    (t : Int) (hmem : delivery ∈ s.deliveries)
    (hids : (s.deliveries.map (fun d => d.id)).Nodup)
    (hub : CounterUB s) (hle : t ≤ delivery.expected_packages)
    (ds' : List Delivery)
    (hds' : ∀ d' ∈ ds', ∃ d ∈ s.deliveries,
      d'.id = d.id ∧ d'.expected_packages = d.expected_packages) :
    ∀ c ∈ setCounterTotal s.counters delivery.id stage t, ∀ d' ∈ ds',
      c.delivery_id = d'.id → c.total ≤ d'.expected_packages := by
  intro c hc d' hd' heq
  rcases hds' d' hd' with ⟨d, hdmem, hid, hexp⟩
  rcases mem_setCounterTotal hc with hold | ⟨hcid, _, hct⟩
  · rw [hexp]
    exact hub c hold d hdmem (heq.trans hid)
  · have hdd : d.id = delivery.id := by rw [← hid, ← heq, hcid]
    have hddel : d = delivery := List.inj_on_of_nodup_map hids hdmem hmem hdd
    rw [hct, hexp, hddel]
    exact hle

lemma scanApply_WF_ub (s : Store) (user : User) (scan : ScanRequest)
    (cdi : Option String) (delivery : Delivery) (hmem : delivery ∈ s.deliveries)
    (hwf : WFStore s) (hub : CounterUB s) :
    WFStore (scanApply s user scan cdi delivery).1 ∧
      CounterUB (scanApply s user scan cdi delivery).1 := by
  obtain ⟨hids, hexp⟩ := hwf
  have hlt : min (counterTotal s.counters delivery.id scan.stage + scan.count)
      delivery.expected_packages ≤ delivery.expected_packages := min_le_right _ _
  have hds' : ∀ d' ∈ (scanApply s user scan cdi delivery).1.deliveries,
      ∃ d ∈ s.deliveries, d'.id = d.id ∧ d'.expected_packages = d.expected_packages := by
    rw [scanApply_deliveries]
    split
    · intro d' hd'
      rcases mem_setDeliveryStatus hd' with ⟨d, hdm, h1, h2, _⟩
      exact ⟨d, hdm, h1, h2⟩
    · intro d' hd'
      exact ⟨d', hd', rfl, rfl⟩
  refine ⟨⟨?_, ?_⟩, ?_⟩
  · rw [scanApply_deliveries]
    split
    · rw [map_id_setDeliveryStatus]
      exact hids
    · exact hids
  · intro d' hd'
    rcases hds' d' hd' with ⟨d, hdm, _, h2⟩
    rw [h2]
    exact hexp d hdm
  · intro c hc d' hd' heq
    rw [scanApply_counters] at hc
    exact setCounterTotal_ub s delivery scan.stage _ hmem hids hub hlt _ hds'
      c hc d' hd' heq

lemma manualApply_WF_ub (s : Store) (user : User) (payload : ManualScanRequest)
    (delivery : Delivery) (hmem : delivery ∈ s.deliveries)
    (hwf : WFStore s) (hub : CounterUB s) :
    WFStore (manualApply s user payload delivery).1 ∧
      CounterUB (manualApply s user payload delivery).1 := by
  obtain ⟨hids, hexp⟩ := hwf
  have hlt : min (counterTotal s.counters delivery.id payload.stage + payload.count)
      delivery.expected_packages ≤ delivery.expected_packages := min_le_right _ _
  have hds' : ∀ d' ∈ (manualApply s user payload delivery).1.deliveries,
      ∃ d ∈ s.deliveries, d'.id = d.id ∧ d'.expected_packages = d.expected_packages := by
    rw [manualApply_deliveries]
    intro d' hd'
    rcases mem_setDeliveryStatus hd' with ⟨d, hdm, h1, h2, _⟩
    exact ⟨d, hdm, h1, h2⟩
  refine ⟨⟨?_, ?_⟩, ?_⟩
  · rw [manualApply_deliveries, map_id_setDeliveryStatus]
    exact hids
  · intro d' hd'
    rcases hds' d' hd' with ⟨d, hdm, _, h2⟩
    rw [h2]
    exact hexp d hdm
  · intro c hc d' hd' heq
    rw [manualApply_counters] at hc
    exact setCounterTotal_ub s delivery payload.stage _ hmem hids hub hlt _ hds'
      c hc d' hd' heq

lemma applyOp_WF_ub (s : Store) (op : Op) (hwf : WFStore s) (hub : CounterUB s) :
    WFStore (applyOp s op) ∧ CounterUB (applyOp s op) := by
  cases op with
  | scan u r c t =>
    cases h : scan_delivery s u r c t with
    | error e =>
      simp only [applyOp, h]
      exact ⟨hwf, hub⟩
    | ok out =>
      simp only [applyOp, h]
      rcases scan_delivery_ok_store h with ⟨delivery, hfd, rfl⟩
      exact scanApply_WF_ub s u r c delivery (findDelivery_mem hfd).1 hwf hub
  | manual u r =>
    cases h : supervisor_manual_scan s u r with
    | error e =>
      simp only [applyOp, h]
      exact ⟨hwf, hub⟩
    | ok out =>
      simp only [applyOp, h]
      rcases supervisor_manual_scan_ok h with ⟨_, delivery, hfd, rfl⟩
      exact manualApply_WF_ub s u r delivery (findDelivery_mem hfd).1 hwf hub

lemma applyOps_WF_ub (ops : List Op) :
    ∀ s : Store, WFStore s → CounterUB s →
      WFStore (applyOps s ops) ∧ CounterUB (applyOps s ops) := by
  induction ops with
  | nil =>
    intro s hwf hub
    exact ⟨hwf, hub⟩
  | cons op ops ih =>
    intro s hwf hub
    have hstep := applyOp_WF_ub s op hwf hub
    have := ih (applyOp s op) hstep.1 hstep.2
    simpa [applyOps, List.foldl_cons] using this

/-! ## Counting the requested source_pick quantity of a scan sequence -/

lemma pickSum_nil : pickSum [] = 0 := rfl

lemma pickSum_cons (r : ScanRequest) (reqs : List ScanRequest) :
    pickSum (r :: reqs) =
      (if r.stage = .source_pick then r.count else 0) + pickSum reqs := by
  unfold pickSum
  rw [List.filter_cons]
  by_cases h : r.stage = .source_pick
  · rw [if_pos (by simpa using h), if_pos h, List.map_cons, List.sum_cons]
  · rw [if_neg (by simpa using h), if_neg h, zero_add]

lemma pickSum_nonneg (reqs : List ScanRequest) (h : ∀ r ∈ reqs, 0 ≤ r.count) :
    0 ≤ pickSum reqs := by
  unfold pickSum
  apply List.sum_nonneg
  intro x hx
  rcases List.mem_map.1 hx with ⟨r, hr, rfl⟩
  exact h r (List.mem_of_mem_filter hr)

lemma findDelivery_scanApply (s : Store) (user : User) (scan : ScanRequest)
    (cdi : Option String) (delivery : Delivery) (n : String) (d0 : Delivery)
    (hfd : findDelivery s n = some d0) :
    ∃ d1, findDelivery (scanApply s user scan cdi delivery).1 n = some d1 ∧
      d1.id = d0.id ∧ d1.expected_packages = d0.expected_packages ∧
      d1.delivery_number = d0.delivery_number := by
  unfold findDelivery at hfd ⊢
  rw [scanApply_deliveries]
  split
  · exact findDelivery_after_status hfd
  · exact ⟨d0, hfd, rfl, rfl, rfl⟩

lemma findDelivery_manualApply (s : Store) (user : User) (payload : ManualScanRequest)
    (delivery : Delivery) (n : String) (d0 : Delivery)
    (hfd : findDelivery s n = some d0) :
    ∃ d1, findDelivery (manualApply s user payload delivery).1 n = some d1 ∧
      d1.id = d0.id ∧ d1.expected_packages = d0.expected_packages ∧
      d1.delivery_number = d0.delivery_number := by
  unfold findDelivery at hfd ⊢
  rw [manualApply_deliveries]
  exact findDelivery_after_status hfd

lemma applyScans_pick_total (user : User) (hrole : user.role ≠ .driver) (n : String)
    (cdi : Option String) (today : Nat) :
    ∀ (reqs : List ScanRequest), (∀ r ∈ reqs, r.delivery_number = n ∧ 0 ≤ r.count) →
    ∀ (s : Store) (d : Delivery), findDelivery s n = some d →
      0 ≤ counterTotal s.counters d.id .source_pick →
      counterTotal s.counters d.id .source_pick ≤ d.expected_packages →
      counterTotal (applyScans s user reqs cdi today).counters d.id .source_pick =
        min d.expected_packages
          (counterTotal s.counters d.id .source_pick + pickSum reqs) := by
  intro reqs
  induction reqs with
  | nil =>
    intro _ s d hfd h0 hcap
    unfold applyScans
    rw [List.foldl_nil, pickSum_nil, add_zero]
    exact (min_eq_right hcap).symm
  | cons r rest ih =>
    intro hreqs s d hfd h0 hcap
    obtain ⟨hrn, hrc⟩ := hreqs r (List.mem_cons_self r rest)
    have hrest : ∀ r' ∈ rest, r'.delivery_number = n ∧ 0 ≤ r'.count :=
      fun r' hr' => hreqs r' (List.mem_cons_of_mem r hr')
    have hfd' : findDelivery s r.delivery_number = some d := by
      rw [hrn]; exact hfd
    have hE0 : 0 ≤ d.expected_packages := le_trans h0 hcap
    unfold applyScans
    rw [List.foldl_cons]
    show counterTotal
        (applyScans (applyOp s (Op.scan user r cdi today)) user rest cdi today).counters
        d.id .source_pick = _
    by_cases hst : r.stage = .source_pick
    · -- a source_pick call by a non-driver always succeeds
      have hok : scan_delivery s user r cdi today = .ok (scanApply s user r cdi d) := by
        rw [scan_delivery_some s user r cdi today d hfd',
          if_neg (fun hx => hrole hx.1),
          if_neg (fun hx => ScanStage.noConfusion (hst.symm.trans hx.1)),
          if_neg (fun hx => ScanStage.noConfusion (hst.symm.trans hx.1))]
      have hs1 : applyOp s (Op.scan user r cdi today) = (scanApply s user r cdi d).1 := by
        simp only [applyOp, hok]
      obtain ⟨d1, hfd1, hd1id, hd1exp, _⟩ :=
        findDelivery_scanApply s user r cdi d n d hfd
      have hcnt1 : counterTotal (scanApply s user r cdi d).1.counters d.id .source_pick =
          min (counterTotal s.counters d.id .source_pick + r.count)
            d.expected_packages := by
        rw [scanApply_counters, hst, counterTotal_setCounterTotal_self]
      have hnew0 : 0 ≤ counterTotal (scanApply s user r cdi d).1.counters d.id .source_pick := by
        rw [hcnt1]
        omega
      have hnewcap : counterTotal (scanApply s user r cdi d).1.counters d.id .source_pick ≤
          d.expected_packages := by
        rw [hcnt1]
        omega
      have hrec := ih hrest (scanApply s user r cdi d).1 d1 hfd1
        (by rw [hd1id]; exact hnew0) (by rw [hd1id, hd1exp]; exact hnewcap)
      rw [hd1id, hd1exp] at hrec
      rw [hs1, hrec, hcnt1, pickSum_cons, if_pos hst]
      have hS : 0 ≤ pickSum rest := pickSum_nonneg rest (fun r' hr' => (hrest r' hr').2)
      omega
    · -- a non-source_pick call never touches the source_pick counter
      cases hout : scan_delivery s user r cdi today with
      | error e =>
        have hs1 : applyOp s (Op.scan user r cdi today) = s := by
          simp only [applyOp, hout]
        rw [hs1, pickSum_cons, if_neg hst, zero_add]
        exact ih hrest s d hfd h0 hcap
      | ok out =>
        rcases scan_delivery_ok_store hout with ⟨delivery, hfdr, rfl⟩
        have hdd : delivery = d := by
          rw [hrn, hfd] at hfdr
          exact (Option.some.inj hfdr).symm
        subst hdd
        have hs1 : applyOp s (Op.scan user r cdi today) = (scanApply s user r cdi delivery).1 := by
          simp only [applyOp, hout]
        obtain ⟨d1, hfd1, hd1id, hd1exp, _⟩ :=
          findDelivery_scanApply s user r cdi delivery n delivery hfd
        have hcnt1 : counterTotal (scanApply s user r cdi delivery).1.counters
            delivery.id .source_pick =
            counterTotal s.counters delivery.id .source_pick := by
          rw [scanApply_counters]
          exact counterTotal_setCounterTotal_other _ _ _ _ _ _
            (fun hx => hst hx.2.symm)
        have hrec := ih hrest (scanApply s user r cdi delivery).1 d1 hfd1
          (by rw [hd1id, hcnt1]; exact h0) (by rw [hd1id, hd1exp, hcnt1]; exact hcap)
        rw [hd1id, hd1exp, hcnt1] at hrec
        rw [hs1, hrec, pickSum_cons, if_neg hst, zero_add]

/-! ## Claim C1: counter bounds under scan and manual-scan sequences -/

/-- C1, counterexample: the claim is false as stated.  A single supervisor
manual scan with requested count `-5` against a fresh delivery (expected 10,
no counter row) succeeds and stores counter total `-5`, which is below 0:
`new_total = min(0 + (-5), 10) = -5` and `counter.total = new_total` is
written unconditionally. -/
theorem C1_counterexample :
    (supervisor_manual_scan (mkStore (mkDelivery .created 10) []) supUser
        { delivery_number := "D1", stage := .source_pick, count := -5, warehouse_id := none }).map
      (fun out => counterTotal out.1.counters 1 ScanStage.source_pick) = .ok (-5) ∧
    ((-5 : Int) < 0) := by decide

/-- C1 (amended): over any sequence of `scan_delivery` and
`supervisor_manual_scan` invocations on a store with unique delivery ids and
nonnegative expected counts, (a) if every requested count is nonnegative then
every counter total stays within `0 ≤ total ≤ expected_packages`, and (b) the
upper bound `total ≤ expected_packages` is preserved for arbitrary (also
negative) requested counts; a negative requested count can, however, drive a
total below 0. -/
theorem C1_theorem (s : Store) (ops : List Op) (hwf : WFStore s) :
    ((∀ op ∈ ops, 0 ≤ op.count) → CounterInv s → CounterInv (applyOps s ops)) ∧
      (CounterUB s → CounterUB (applyOps s ops)) :=
  ⟨fun hc hinv => (applyOps_WF_inv ops s hwf hinv hc).2,
   fun hub => (applyOps_WF_ub ops s hwf hub).2⟩

/-- C1, witness: the amended theorem applied to a concrete two-operation
sequence (a scan of 4 then an overscanning manual scan of 9 against expected
10). -/
theorem C1_witness :
    CounterInv (applyOps (mkStore (mkDelivery .created 10) [])
      [Op.scan supUser { delivery_number := "D1", count := 4, stage := .source_pick } none 0,
       Op.manual supUser { delivery_number := "D1", stage := .source_pick, count := 9, warehouse_id := none }]) ∧
    CounterUB (applyOps (mkStore (mkDelivery .created 10) [])
      [Op.scan supUser { delivery_number := "D1", count := 4, stage := .source_pick } none 0,
       Op.manual supUser { delivery_number := "D1", stage := .source_pick, count := 9, warehouse_id := none }]) :=
  ⟨(C1_theorem (mkStore (mkDelivery .created 10) [])
      [Op.scan supUser { delivery_number := "D1", count := 4, stage := .source_pick } none 0,
       Op.manual supUser { delivery_number := "D1", stage := .source_pick, count := 9, warehouse_id := none }]
      (by decide)).1 (by decide) (by decide),
   (C1_theorem (mkStore (mkDelivery .created 10) [])
      [Op.scan supUser { delivery_number := "D1", count := 4, stage := .source_pick } none 0,
       Op.manual supUser { delivery_number := "D1", stage := .source_pick, count := 9, warehouse_id := none }]
      (by decide)).2 (by decide)⟩

/-! ## Claim C2: the final counter equals min(expected, sum of requests) -/

/-- C2, counterexample: the claim is false as stated when a requested count
is negative.  Two successful scans of 15 and −5 against expected 10 leave the
counter at 5, while `min(expected, sum of requested counts) = min(10, 10) =
10`. -/
theorem C2_counterexample :
    ((scan_delivery (mkStore (mkDelivery .created 10) []) supUser
          { delivery_number := "D1", count := 15, stage := .source_pick } none 0).bind
        (fun out => scan_delivery out.1 supUser
          { delivery_number := "D1", count := -5, stage := .source_pick } none 0)).map
      (fun out => counterTotal out.1.counters 1 ScanStage.source_pick) = .ok 5 ∧
    min (10 : Int) (15 + -5) = 10 ∧ (5 : Int) ≠ 10 := by decide

/-- C2 (amended): for every sequence of `scan_delivery` calls by a non-driver
actor against one delivery, all with nonnegative requested counts and any mix
of stages, the final source_pick counter total equals
`min(expected_packages, sum of the source_pick requested counts)` — however
the quantity is chunked or interleaved with scans of the other stages —
starting from an absent (or zero) source_pick counter. -/
theorem C2_theorem (s : Store) (user : User) (reqs : List ScanRequest) (n : String)
    (d : Delivery) (cdi : Option String) (today : Nat)
    (hrole : user.role ≠ .driver)
    (hd : findDelivery s n = some d)
    (hreqs : ∀ r ∈ reqs, r.delivery_number = n ∧ 0 ≤ r.count)
    (hstart : counterTotal s.counters d.id .source_pick = 0)
    (hE : 0 ≤ d.expected_packages) :
    counterTotal (applyScans s user reqs cdi today).counters d.id .source_pick =
      min d.expected_packages (pickSum reqs) := by
  have h := applyScans_pick_total user hrole n cdi today reqs hreqs s d hd
    (by rw [hstart]) (by rw [hstart]; exact hE)
  rwa [hstart, zero_add] at h

/-- C2, witness: the amended theorem applied to the sequence 6, 1 (at
dest_receive), 10 against expected 10: the source_pick counter ends at
`min(10, 6 + 10) = 10`. -/
theorem C2_witness :
    counterTotal (applyScans (mkStore (mkDelivery .created 10) []) supUser
        [{ delivery_number := "D1", count := 6, stage := .source_pick },
         { delivery_number := "D1", count := 1, stage := .dest_receive },
         { delivery_number := "D1", count := 10, stage := .source_pick }] none 0).counters
      (mkDelivery .created 10).id ScanStage.source_pick =
      min (mkDelivery .created 10).expected_packages
        (pickSum [{ delivery_number := "D1", count := 6, stage := .source_pick },
          { delivery_number := "D1", count := 1, stage := .dest_receive },
          { delivery_number := "D1", count := 10, stage := .source_pick }]) :=
  C2_theorem (mkStore (mkDelivery .created 10) []) supUser
    [{ delivery_number := "D1", count := 6, stage := .source_pick },
     { delivery_number := "D1", count := 1, stage := .dest_receive },
     { delivery_number := "D1", count := 10, stage := .source_pick }] "D1"
    (mkDelivery .created 10) none 0 (by decide) (by decide) (by decide)
    (by decide) (by decide)

/-! ## Claim C3: dest_arrival precondition and all-or-nothing failure -/

/-- C3, counterexample: the claim is false as stated.  A driver whose route
today is empty scanning `dest_arrival` on a delivery with status `created`
receives `Forbidden`, not `PreconditionFailed`: the route-authorization check
runs before the stage gate. -/
theorem C3_counterexample :
    scan_delivery (mkStore (mkDelivery .created 10) []) drvUser
      { delivery_number := "D1", count := 1, stage := .dest_arrival } none 0 =
      .error .forbidden ∧
    ApiError.forbidden ≠ ApiError.preconditionFailed := by decide

/-- C3 (amended): (a) a `dest_arrival` scan on an existing delivery whose
status is not `picked` fails with `PreconditionFailed` whenever the actor is
not a driver failing the route authorization (for such a driver `Forbidden`
takes precedence); (b) every failing path of `scan_delivery` (NotFound,
Forbidden, PreconditionFailed) leaves the store completely unchanged. -/
theorem C3_theorem :
    (∀ (s : Store) (user : User) (scan : ScanRequest) (cdi : Option String)
      (today : Nat) (d : Delivery),
      findDelivery s scan.delivery_number = some d →
      scan.stage = .dest_arrival → d.status ≠ .picked →
      (user.role = .driver →
        d.source_id ∈ routeWarehouses s.routes user.id today ∨
        d.destination_id ∈ routeWarehouses s.routes user.id today) →
      scan_delivery s user scan cdi today = .error .preconditionFailed) ∧
    (∀ (s : Store) (user : User) (scan : ScanRequest) (cdi : Option String)
      (today : Nat) (e : ApiError),
      scan_delivery s user scan cdi today = .error e →
      applyOp s (Op.scan user scan cdi today) = s) := by
  constructor
  · intro s user scan cdi today d hd hstage hstatus hauth
    rw [scan_delivery_some s user scan cdi today d hd,
      if_neg (auth_not_forbidden hauth), if_pos ⟨hstage, hstatus⟩]
  · intro s user scan cdi today e h
    simp only [applyOp, h]

/-- C3, witness: part (a) at a supervisor scanning `dest_arrival` on a
`created` delivery, and part (b) at the resulting `PreconditionFailed`
failure, whose `applyOp` leaves the store untouched. -/
theorem C3_witness :
    scan_delivery (mkStore (mkDelivery .created 10) []) supUser
      { delivery_number := "D1", count := 1, stage := .dest_arrival } none 0 =
      .error .preconditionFailed ∧
    applyOp (mkStore (mkDelivery .created 10) [])
      (Op.scan supUser { delivery_number := "D1", count := 1, stage := .dest_arrival } none 0) =
      mkStore (mkDelivery .created 10) [] :=
  ⟨C3_theorem.1 (mkStore (mkDelivery .created 10) []) supUser
      { delivery_number := "D1", count := 1, stage := .dest_arrival } none 0
      (mkDelivery .created 10) (by decide) rfl (by decide) (fun h => absurd h (by decide)),
   C3_theorem.2 (mkStore (mkDelivery .created 10) []) supUser
      { delivery_number := "D1", count := 1, stage := .dest_arrival } none 0
      .preconditionFailed
      (C3_theorem.1 (mkStore (mkDelivery .created 10) []) supUser
        { delivery_number := "D1", count := 1, stage := .dest_arrival } none 0
        (mkDelivery .created 10) (by decide) rfl (by decide)
        (fun h => absurd h (by decide)))⟩

/-! ## Claim C4: driver authorization and the main warehouse -/

/-- C4, counterexample: the claim is false as stated.  A driver with no route
rows today scans a delivery whose source is the designated main warehouse:
per the spec's `IsAuthorized` the source is authorized (main is implicitly
authorized every day), yet the code returns `Forbidden` — `scan_delivery`
consults only the `DriverRoute` rows. -/
theorem C4_counterexample :
    scan_delivery (mkStore (mkDelivery .created 10) []) drvUser
      { delivery_number := "D1", count := 1, stage := .source_pick } none 0 =
      .error .forbidden ∧
    specIsAuthorized (mkStore (mkDelivery .created 10) []) drvUser.id
      (mkDelivery .created 10).source_id 0 = true := by decide

/-- C4 (amended): (a) a driver's scan on an existing delivery fails with
`Forbidden` if and only if neither the delivery's source nor its destination
warehouse appears in the driver's `DriverRoute` rows for the current date —
the main warehouse enjoys no implicit authorization in this check; (b) the
main warehouse is authorized through those rows only because `select_route`
inserts it whenever the driver makes a route selection that day. -/
theorem C4_theorem :
    (∀ (s : Store) (user : User) (scan : ScanRequest) (cdi : Option String)
      (today : Nat) (d : Delivery),
      findDelivery s scan.delivery_number = some d → user.role = .driver →
      (scan_delivery s user scan cdi today = .error .forbidden ↔
        (d.source_id ∉ routeWarehouses s.routes user.id today ∧
         d.destination_id ∉ routeWarehouses s.routes user.id today))) ∧
    (∀ (s : Store) (user : User) (ws : List Nat) (today : Nat) (m : Warehouse),
      s.warehouses.find? (fun w => w.is_main) = some m →
      m.id ∈ routeWarehouses (select_route s user ws today).routes user.id today) := by
  constructor
  · intro s user scan cdi today d hd hrole
    rw [scan_delivery_some s user scan cdi today d hd]
    constructor
    · intro h
      by_cases hc1 : user.role = .driver ∧
          d.source_id ∉ routeWarehouses s.routes user.id today ∧
          d.destination_id ∉ routeWarehouses s.routes user.id today
      · exact ⟨hc1.2.1, hc1.2.2⟩
      · rw [if_neg hc1] at h
        split_ifs at h
        · exact absurd (Except.error.inj h) (by decide)
        · exact absurd (Except.error.inj h) (by decide)
    · intro hx
      rw [if_pos ⟨hrole, hx.1, hx.2⟩]
  · intro s user ws today m hm
    unfold select_route routeWarehouses
    rw [hm]
    simp only [List.filter_append, List.map_append, List.mem_append]
    left
    right
    simp

/-- C4, witness: part (a) at the fixture driver with an empty route (both
sides of the iff hold), part (b) at a route selection that inserts the main
warehouse row. -/
theorem C4_witness :
    (scan_delivery (mkStore (mkDelivery .created 10) []) drvUser
        { delivery_number := "D1", count := 1, stage := .source_pick } none 0 =
        .error .forbidden ↔
      ((mkDelivery .created 10).source_id ∉
          routeWarehouses (mkStore (mkDelivery .created 10) []).routes drvUser.id 0 ∧
        (mkDelivery .created 10).destination_id ∉
          routeWarehouses (mkStore (mkDelivery .created 10) []).routes drvUser.id 0)) ∧
    ({ id := 1, is_main := true } : Warehouse).id ∈
      routeWarehouses (select_route (mkStore (mkDelivery .created 10) []) drvUser [2] 0).routes
        drvUser.id 0 :=
  ⟨C4_theorem.1 (mkStore (mkDelivery .created 10) []) drvUser
      { delivery_number := "D1", count := 1, stage := .source_pick } none 0
      (mkDelivery .created 10) (by decide) rfl,
   C4_theorem.2 (mkStore (mkDelivery .created 10) []) drvUser [2] 0
      { id := 1, is_main := true } (by decide)⟩

/-! ## Claim C5: source_pick status transition -/

/-- C5, counterexample: the claim is false as stated when the applied
increment is 0.  On a delivery with status `partial_pick` whose source_pick
counter already equals the expected 10 (reachable, e.g., after a supervisor
delivery update lowered `expected_packages` or reset the status), a further
source_pick scan of 3 succeeds with resulting total 10 ≥ 10, yet the status
stays `partial_pick` instead of becoming `picked`: the status block only runs
when `increment > 0`. -/
theorem C5_counterexample :
    (scan_delivery (mkStore (mkDelivery .partial_pick 10)
          [{ delivery_id := 1, stage := .source_pick, total := 10 }]) supUser
        { delivery_number := "D1", count := 3, stage := .source_pick } none 0).map
      (fun out => (out.2.delivery_status, counterTotal out.1.counters 1 ScanStage.source_pick)) =
      .ok (DeliveryStatus.partial_pick, 10) ∧
    (10 : Int) ≥ 10 ∧ DeliveryStatus.partial_pick ≠ DeliveryStatus.picked := by decide

/-- C5 (amended): for every successful source_pick scan on a delivery with
status `created` or `partial_pick` whose applied increment is positive, the
status becomes `picked` when the resulting counter total reaches
`expected_packages` and `partial_pick` when it stays strictly below — both in
the response and in the stored delivery row. -/
theorem C5_theorem (s : Store) (user : User) (scan : ScanRequest) (cdi : Option String)
    (today : Nat) (d : Delivery)
    (hd : findDelivery s scan.delivery_number = some d)
    (hstage : scan.stage = .source_pick)
    (_hstatus : d.status = .created ∨ d.status = .partial_pick)
    (hauth : user.role = .driver →
      d.source_id ∈ routeWarehouses s.routes user.id today ∨
      d.destination_id ∈ routeWarehouses s.routes user.id today)
    (hinc : 0 < max 0 (min (counterTotal s.counters d.id scan.stage + scan.count)
      d.expected_packages - counterTotal s.counters d.id scan.stage)) :
    (scan_delivery s user scan cdi today).map (fun out => out.2.delivery_status) =
      .ok (if min (counterTotal s.counters d.id scan.stage + scan.count)
            d.expected_packages < d.expected_packages
          then DeliveryStatus.partial_pick else DeliveryStatus.picked) ∧
    (scan_delivery s user scan cdi today).map
        (fun out => (findDelivery out.1 scan.delivery_number).map (fun d2 => d2.status)) =
      .ok (some (if min (counterTotal s.counters d.id scan.stage + scan.count)
            d.expected_packages < d.expected_packages
          then DeliveryStatus.partial_pick else DeliveryStatus.picked)) := by
  have hok : scan_delivery s user scan cdi today = .ok (scanApply s user scan cdi d) := by
    rw [scan_delivery_some s user scan cdi today d hd,
      if_neg (auth_not_forbidden hauth),
      if_neg (fun hx => ScanStage.noConfusion (hstage.symm.trans hx.1)),
      if_neg (fun hx => ScanStage.noConfusion (hstage.symm.trans hx.1))]
  constructor
  · rw [hok]
    show Except.ok ((scanApply s user scan cdi d).2.delivery_status) = _
    rw [scanApply_resp_status, if_pos hinc, hstage]
    rfl
  · rw [hok]
    show Except.ok ((findDelivery (scanApply s user scan cdi d).1
        scan.delivery_number).map (fun d2 => d2.status)) = _
    have hdel : (scanApply s user scan cdi d).1.deliveries =
        setDeliveryStatus s.deliveries d.id
          (lifecycleStatus scan.stage
            (min (counterTotal s.counters d.id scan.stage + scan.count)
              d.expected_packages) d.expected_packages) := by
      rw [scanApply_deliveries, if_pos hinc]
    unfold findDelivery
    rw [hdel, findDelivery_after_status_self hd, Option.map_some', hstage]
    rfl

/-- C5, witness: the amended theorem at a fresh `created` delivery scanned
source_pick with exactly the expected count 10: the status becomes `picked`. -/
theorem C5_witness :
    (scan_delivery (mkStore (mkDelivery .created 10) []) supUser
        { delivery_number := "D1", count := 10, stage := .source_pick } none 0).map
      (fun out => out.2.delivery_status) =
      .ok (if min (counterTotal (mkStore (mkDelivery .created 10) []).counters
            (mkDelivery .created 10).id ScanStage.source_pick + 10) 10 < 10
          then DeliveryStatus.partial_pick else DeliveryStatus.picked) ∧
    (scan_delivery (mkStore (mkDelivery .created 10) []) supUser
        { delivery_number := "D1", count := 10, stage := .source_pick } none 0).map
        (fun out => (findDelivery out.1 "D1").map (fun d2 => d2.status)) =
      .ok (some (if min (counterTotal (mkStore (mkDelivery .created 10) []).counters
            (mkDelivery .created 10).id ScanStage.source_pick + 10) 10 < 10
          then DeliveryStatus.partial_pick else DeliveryStatus.picked)) :=
  C5_theorem (mkStore (mkDelivery .created 10) []) supUser
    { delivery_number := "D1", count := 10, stage := .source_pick } none 0
    (mkDelivery .created 10) (by decide) rfl (Or.inl rfl)
    (fun h => absurd h (by decide)) (by decide)

/-! ## Claim C6: the recorded ScanEvent -/

/-- C6, confirmed: a successful scan with a positive applied increment
appends exactly one ScanEvent whose count is the applied increment (never the
raw requested count) and whose warehouse is the manager's own warehouse for a
manager actor, else the delivery's source (source_pick) or destination
(dest_arrival / dest_receive); with increment 0 no ScanEvent is appended. -/
theorem C6_theorem (s : Store) (user : User) (scan : ScanRequest) (cdi : Option String)
    (today : Nat) (d : Delivery)
    (hd : findDelivery s scan.delivery_number = some d)
    (hauth : user.role = .driver →
      d.source_id ∈ routeWarehouses s.routes user.id today ∨
      d.destination_id ∈ routeWarehouses s.routes user.id today)
    (hgate1 : scan.stage = .dest_arrival → d.status = .picked)
    (hgate2 : scan.stage = .dest_receive →
      d.status ∈ [DeliveryStatus.picked, .arrived, .partial_receive]) :
    (0 < max 0 (min (counterTotal s.counters d.id scan.stage + scan.count)
        d.expected_packages - counterTotal s.counters d.id scan.stage) →
      (scan_delivery s user scan cdi today).map (fun out => out.1.events) =
        .ok (s.events ++
          [{ delivery_id := d.id, stage := scan.stage, scanned_by := user.id,
             warehouse_id :=
               if user.role = .manager then user.warehouse_id
               else if scan.stage = .source_pick then some d.source_id
               else some d.destination_id,
             count := max 0 (min (counterTotal s.counters d.id scan.stage + scan.count)
               d.expected_packages - counterTotal s.counters d.id scan.stage),
             client_device_id := cdi }])) ∧
    (max 0 (min (counterTotal s.counters d.id scan.stage + scan.count)
        d.expected_packages - counterTotal s.counters d.id scan.stage) = 0 →
      (scan_delivery s user scan cdi today).map (fun out => out.1.events) = .ok s.events) := by
  have hok : scan_delivery s user scan cdi today = .ok (scanApply s user scan cdi d) := by
    rw [scan_delivery_some s user scan cdi today d hd,
      if_neg (auth_not_forbidden hauth),
      if_neg (fun hx => hx.2 (hgate1 hx.1)),
      if_neg (fun hx => hx.2 (hgate2 hx.1))]
  constructor
  · intro hpos
    rw [hok]
    show Except.ok ((scanApply s user scan cdi d).1.events) = _
    rw [scanApply_events, if_pos hpos]
  · intro hzero
    rw [hok]
    show Except.ok ((scanApply s user scan cdi d).1.events) = _
    rw [scanApply_events, if_neg (by omega)]

/-- C6, witness: a manager (warehouse 3) scans dest_receive count 4 on an
`arrived` delivery: one event is appended with count 4 and the manager's own
warehouse. -/
theorem C6_witness :
    (scan_delivery (mkStore (mkDelivery .arrived 10) []) mgrUser
        { delivery_number := "D1", count := 4, stage := .dest_receive } none 0).map
      (fun out => out.1.events) =
      .ok ((mkStore (mkDelivery .arrived 10) []).events ++
        [{ delivery_id := (mkDelivery .arrived 10).id, stage := ScanStage.dest_receive,
           scanned_by := mgrUser.id,
           warehouse_id :=
             if mgrUser.role = .manager then mgrUser.warehouse_id
             else if ScanStage.dest_receive = ScanStage.source_pick then
               some (mkDelivery .arrived 10).source_id
             else some (mkDelivery .arrived 10).destination_id,
           count := max 0 (min (counterTotal (mkStore (mkDelivery .arrived 10) []).counters
               (mkDelivery .arrived 10).id ScanStage.dest_receive + 4)
               (mkDelivery .arrived 10).expected_packages -
             counterTotal (mkStore (mkDelivery .arrived 10) []).counters
               (mkDelivery .arrived 10).id ScanStage.dest_receive),
           client_device_id := none }]) :=
  (C6_theorem (mkStore (mkDelivery .arrived 10) []) mgrUser
      { delivery_number := "D1", count := 4, stage := .dest_receive } none 0
      (mkDelivery .arrived 10) (by decide) (fun h => absurd h (by decide))
      (fun h => absurd h (by decide)) (fun _ => by decide)).1 (by decide)

/-! ## Claim C7: idempotence of no-op scans at a full counter -/

/-- C7, confirmed: once a (delivery, stage) counter equals
`expected_packages`, any further successful scan at that stage has applied
increment 0, appends no ScanEvent, appends one AuditLog entry recording count
0, and leaves the stored deliveries (hence the status) and the reported
status unchanged. -/
theorem C7_theorem (s : Store) (user : User) (scan : ScanRequest) (cdi : Option String)
    (today : Nat) (d : Delivery)
    (hd : findDelivery s scan.delivery_number = some d)
    (hfull : counterTotal s.counters d.id scan.stage = d.expected_packages)
    (hauth : user.role = .driver →
      d.source_id ∈ routeWarehouses s.routes user.id today ∨
      d.destination_id ∈ routeWarehouses s.routes user.id today)
    (hgate1 : scan.stage = .dest_arrival → d.status = .picked)
    (hgate2 : scan.stage = .dest_receive →
      d.status ∈ [DeliveryStatus.picked, .arrived, .partial_receive]) :
    max 0 (min (counterTotal s.counters d.id scan.stage + scan.count)
      d.expected_packages - counterTotal s.counters d.id scan.stage) = 0 ∧
    (scan_delivery s user scan cdi today).map (fun out => out.1.events) = .ok s.events ∧
    (scan_delivery s user scan cdi today).map (fun out => out.1.audit) =
      .ok (s.audit ++
        [{ actor_id := user.id, event_type := "scan", delivery_id := d.id,
           detail_stage := some scan.stage, detail_count := some 0 }]) ∧
    (scan_delivery s user scan cdi today).map (fun out => out.1.deliveries) =
      .ok s.deliveries ∧
    (scan_delivery s user scan cdi today).map (fun out => out.2.delivery_status) =
      .ok d.status := by
  have hok : scan_delivery s user scan cdi today = .ok (scanApply s user scan cdi d) := by
    rw [scan_delivery_some s user scan cdi today d hd,
      if_neg (auth_not_forbidden hauth),
      if_neg (fun hx => hx.2 (hgate1 hx.1)),
      if_neg (fun hx => hx.2 (hgate2 hx.1))]
  have hinc0 : max 0 (min (counterTotal s.counters d.id scan.stage + scan.count)
      d.expected_packages - counterTotal s.counters d.id scan.stage) = 0 := by
    rw [hfull]
    omega
  refine ⟨hinc0, ?_, ?_, ?_, ?_⟩
  · rw [hok]
    show Except.ok ((scanApply s user scan cdi d).1.events) = _
    rw [scanApply_events, if_neg (by omega)]
  · rw [hok]
    show Except.ok ((scanApply s user scan cdi d).1.audit) = _
    rw [scanApply_audit, hinc0]
  · rw [hok]
    show Except.ok ((scanApply s user scan cdi d).1.deliveries) = _
    rw [scanApply_deliveries, if_neg (by omega)]
  · rw [hok]
    show Except.ok ((scanApply s user scan cdi d).2.delivery_status) = _
    rw [scanApply_resp_status, if_neg (by omega)]

/-- C7, witness: a further source_pick scan of 5 on a `picked` delivery whose
source_pick counter already equals the expected 10. -/
theorem C7_witness :
    max 0 (min (counterTotal (mkStore (mkDelivery .picked 10)
        [{ delivery_id := 1, stage := .source_pick, total := 10 }]).counters
        (mkDelivery .picked 10).id ScanStage.source_pick + 5)
        (mkDelivery .picked 10).expected_packages -
      counterTotal (mkStore (mkDelivery .picked 10)
        [{ delivery_id := 1, stage := .source_pick, total := 10 }]).counters
        (mkDelivery .picked 10).id ScanStage.source_pick) = 0 ∧
    (scan_delivery (mkStore (mkDelivery .picked 10)
        [{ delivery_id := 1, stage := .source_pick, total := 10 }]) supUser
        { delivery_number := "D1", count := 5, stage := .source_pick } none 0).map
      (fun out => out.1.events) =
      .ok (mkStore (mkDelivery .picked 10)
        [{ delivery_id := 1, stage := .source_pick, total := 10 }]).events ∧
    (scan_delivery (mkStore (mkDelivery .picked 10)
        [{ delivery_id := 1, stage := .source_pick, total := 10 }]) supUser
        { delivery_number := "D1", count := 5, stage := .source_pick } none 0).map
      (fun out => out.1.audit) =
      .ok ((mkStore (mkDelivery .picked 10)
          [{ delivery_id := 1, stage := .source_pick, total := 10 }]).audit ++
        [{ actor_id := supUser.id, event_type := "scan",
           delivery_id := (mkDelivery .picked 10).id,
           detail_stage := some ScanStage.source_pick, detail_count := some 0 }]) ∧
    (scan_delivery (mkStore (mkDelivery .picked 10)
        [{ delivery_id := 1, stage := .source_pick, total := 10 }]) supUser
        { delivery_number := "D1", count := 5, stage := .source_pick } none 0).map
      (fun out => out.1.deliveries) =
      .ok (mkStore (mkDelivery .picked 10)
        [{ delivery_id := 1, stage := .source_pick, total := 10 }]).deliveries ∧
    (scan_delivery (mkStore (mkDelivery .picked 10)
        [{ delivery_id := 1, stage := .source_pick, total := 10 }]) supUser
        { delivery_number := "D1", count := 5, stage := .source_pick } none 0).map
      (fun out => out.2.delivery_status) = .ok (mkDelivery .picked 10).status :=
  C7_theorem (mkStore (mkDelivery .picked 10)
      [{ delivery_id := 1, stage := .source_pick, total := 10 }]) supUser
    { delivery_number := "D1", count := 5, stage := .source_pick } none 0
    (mkDelivery .picked 10) (by decide) (by decide)
    (fun h => absurd h (by decide)) (fun _ => rfl) (fun _ => by decide)

/-! ## Claim C8: fanout filter of delivery_created events -/

lemma notifyTarget_eq_true (routes : List DriverRoute) (today : Nat) (d : Delivery)
    (uid : Nat) (c : ConnEntry) :
    notifyTarget routes today d (uid, c) = true ↔
      (c.role = "supervisor" ∨
        (c.role = "manager" ∧ c.warehouse_id = some d.destination_id) ∨
        (c.role = "driver" ∧
          (d.destination_id ∈ routeWarehouses routes uid today ∨
           d.source_id ∈ routeWarehouses routes uid today))) := by
  unfold notifyTarget
  by_cases h1 : c.role = "supervisor"
  · simp [h1]
  · rw [if_neg (by simpa using h1)]
    by_cases h2 : c.role = "manager"
    · rw [if_pos (by simpa using h2)]
      cases hw : c.warehouse_id with
      | none => simp [h1, h2, hw]
      | some w => simp [h1, h2, hw]
    · rw [if_neg (by simpa using h2)]
      by_cases h3 : c.role = "driver"
      · rw [if_pos (by simpa using h3)]
        simp [h1, h2, h3, Or.comm]
      · rw [if_neg (by simpa using h3)]
        simp [h1, h2, h3]

/-- C8, confirmed: for a new delivery, a live registered connection is sent
the `delivery_created` event if and only if its role is supervisor, or its
role is manager and its affinity warehouse equals the delivery's destination,
or its role is driver and the delivery's destination or source appears in
that driver's route rows for the current date. -/
theorem C8_theorem (reg : Registry) (d : Delivery) (routes : List DriverRoute)
    (today : Nat) (sendOk : Nat → Bool) (uid : Nat) (c : ConnEntry)
    (hmem : (uid, c) ∈ reg) :
    (uid, c) ∈ (notify_new_delivery reg d routes today sendOk).2.1 ↔
      (c.role = "supervisor" ∨
        (c.role = "manager" ∧ c.warehouse_id = some d.destination_id) ∨
        (c.role = "driver" ∧
          (d.destination_id ∈ routeWarehouses routes uid today ∨
           d.source_id ∈ routeWarehouses routes uid today))) := by
  unfold notify_new_delivery
  rw [List.mem_filter]
  simp only [hmem, true_and]
  exact notifyTarget_eq_true routes today d uid c

/-- C8, witness: the theorem at the spec's watcher scenario — a supervisor
connection and a manager connection affiliated to warehouse 3 evaluated
against a delivery to warehouse 2: the supervisor matches, the manager does
not. -/
theorem C8_witness :
    ((1, ({ role := "supervisor", warehouse_id := none, ws := 10 } : ConnEntry)) ∈
        (notify_new_delivery
          [(1, { role := "supervisor", warehouse_id := none, ws := 10 }),
           (2, { role := "manager", warehouse_id := some 3, ws := 11 })]
          (mkDelivery .created 10) [] 0 (fun _ => true)).2.1 ↔
      (("supervisor" : String) = "supervisor" ∨
        (("supervisor" : String) = "manager" ∧
          (none : Option Nat) = some (mkDelivery .created 10).destination_id) ∨
        (("supervisor" : String) = "driver" ∧
          ((mkDelivery .created 10).destination_id ∈ routeWarehouses [] 1 0 ∨
           (mkDelivery .created 10).source_id ∈ routeWarehouses [] 1 0)))) ∧
    ((2, ({ role := "manager", warehouse_id := some 3, ws := 11 } : ConnEntry)) ∈
        (notify_new_delivery
          [(1, { role := "supervisor", warehouse_id := none, ws := 10 }),
           (2, { role := "manager", warehouse_id := some 3, ws := 11 })]
          (mkDelivery .created 10) [] 0 (fun _ => true)).2.1 ↔
      (("manager" : String) = "supervisor" ∨
        (("manager" : String) = "manager" ∧
          (some 3 : Option Nat) = some (mkDelivery .created 10).destination_id) ∨
        (("manager" : String) = "driver" ∧
          ((mkDelivery .created 10).destination_id ∈ routeWarehouses [] 2 0 ∨
           (mkDelivery .created 10).source_id ∈ routeWarehouses [] 2 0)))) :=
  ⟨C8_theorem
      [(1, { role := "supervisor", warehouse_id := none, ws := 10 }),
       (2, { role := "manager", warehouse_id := some 3, ws := 11 })]
      (mkDelivery .created 10) [] 0 (fun _ => true) 1
      { role := "supervisor", warehouse_id := none, ws := 10 } (by decide),
   C8_theorem
      [(1, { role := "supervisor", warehouse_id := none, ws := 10 }),
       (2, { role := "manager", warehouse_id := some 3, ws := 11 })]
      (mkDelivery .created 10) [] 0 (fun _ => true) 2
      { role := "manager", warehouse_id := some 3, ws := 11 } (by decide)⟩

/-! ## Claim C9: send failure, unregistration, and fanout isolation -/

/-- C9: the code keeps a handle registered even when sending to it fails.
`send_json_safe` wraps the transport send in `try/except: pass`, so the
exception never reaches `notify_new_delivery`'s cleanup branch and
`unregister_connection` is not called: at a registry holding a supervisor
connection whose handle 10 fails to send and a matching manager connection on
handle 11, the fanout returns the registry unchanged (handle 10 still
registered), attempts the send to both, and actually delivers only to handle
11 — the failure does not prevent delivery to the other handle, but no
unregistration happens. -/
theorem C9_theorem :
    notify_new_delivery
        [(1, { role := "supervisor", warehouse_id := none, ws := 10 }),
         (2, { role := "manager", warehouse_id := some 2, ws := 11 })]
        (mkDelivery .created 10) [] 0 (fun h => h != 10) =
      ([(1, { role := "supervisor", warehouse_id := none, ws := 10 }),
        (2, { role := "manager", warehouse_id := some 2, ws := 11 })],
       [(1, { role := "supervisor", warehouse_id := none, ws := 10 }),
        (2, { role := "manager", warehouse_id := some 2, ws := 11 })],
       [(2, { role := "manager", warehouse_id := some 2, ws := 11 })]) ∧
    (fun h => h != 10) 10 = false ∧
    (1, ({ role := "supervisor", warehouse_id := none, ws := 10 } : ConnEntry)) ∈
      (notify_new_delivery
        [(1, { role := "supervisor", warehouse_id := none, ws := 10 }),
         (2, { role := "manager", warehouse_id := some 2, ws := 11 })]
        (mkDelivery .created 10) [] 0 (fun h => h != 10)).1 := by
  refine ⟨rfl, rfl, ?_⟩
  decide

/-! ## Claim C10: manual scan recomputes status unconditionally -/

/-- C10, confirmed: a supervisor manual scan on an existing delivery always
recomputes the status from (stage, new counter total, expected_packages) —
no stage precondition gate, no increment guard — both in the response and in
the stored row; in particular a `dest_arrival` manual scan (with any count,
e.g. 0) sets the status to `arrived` whatever the current status, including
the terminal statuses. -/
theorem C10_theorem (s : Store) (user : User) (payload : ManualScanRequest)
    (d : Delivery) (hrole : user.role = .supervisor)
    (hd : findDelivery s payload.delivery_number = some d) :
    (supervisor_manual_scan s user payload).map (fun out => out.2.1) =
      .ok (lifecycleStatus payload.stage
        (min (counterTotal s.counters d.id payload.stage + payload.count)
          d.expected_packages) d.expected_packages) ∧
    (supervisor_manual_scan s user payload).map
        (fun out => (findDelivery out.1 payload.delivery_number).map (fun d2 => d2.status)) =
      .ok (some (lifecycleStatus payload.stage
        (min (counterTotal s.counters d.id payload.stage + payload.count)
          d.expected_packages) d.expected_packages)) ∧
    (payload.stage = .dest_arrival →
      (supervisor_manual_scan s user payload).map (fun out => out.2.1) =
        .ok DeliveryStatus.arrived) := by
  have hok : supervisor_manual_scan s user payload =
      .ok (manualApply s user payload d) :=
    supervisor_manual_scan_sup s user payload d hrole hd
  have h1 : (supervisor_manual_scan s user payload).map (fun out => out.2.1) =
      .ok (lifecycleStatus payload.stage
        (min (counterTotal s.counters d.id payload.stage + payload.count)
          d.expected_packages) d.expected_packages) := by
    rw [hok]
    show Except.ok ((manualApply s user payload d).2.1) = _
    rw [manualApply_status]
  refine ⟨h1, ?_, ?_⟩
  · rw [hok]
    show Except.ok ((findDelivery (manualApply s user payload d).1
        payload.delivery_number).map (fun d2 => d2.status)) = _
    unfold findDelivery
    rw [manualApply_deliveries, findDelivery_after_status_self hd, Option.map_some']
  · intro hstage
    rw [h1, hstage]
    rfl

/-- C10, witness: a manual `dest_arrival` scan with count 0 on a delivery in
the terminal status `received` (counter already full) sets the status to
`arrived`. -/
theorem C10_witness :
    (supervisor_manual_scan (mkStore (mkDelivery .received 10)
        [{ delivery_id := 1, stage := .dest_receive, total := 10 }]) supUser
        { delivery_number := "D1", stage := .dest_arrival, count := 0, warehouse_id := none }).map
      (fun out => out.2.1) = .ok DeliveryStatus.arrived :=
  (C10_theorem (mkStore (mkDelivery .received 10)
      [{ delivery_id := 1, stage := .dest_receive, total := 10 }]) supUser
    { delivery_number := "D1", stage := .dest_arrival, count := 0, warehouse_id := none }
    (mkDelivery .received 10) rfl (by decide)).2.2 rfl

end DeliveryBackend
